import Mathlib

set_option maxHeartbeats 2000000

/-!
Shallow embedding of the `floris-xlx/ocr_search` repository
(`src/index.py` and `src/ocr_search.py`).

The indexing pipeline extracts per-file metadata, fingerprints it with
SHA-256 over a concatenation of four metadata fields, and commits batches
of rows into a SQLite table with `INSERT OR IGNORE` under an `id` primary
key.  The embedding below models, from the source:

* SHA-256 (FIPS 180-4) over the UTF-8 bytes of a string, rendered as the
  64-character lowercase hexadecimal digest (`hashlib.sha256(...).hexdigest()`),
  with 32-bit machine words modelled as `Nat` reduced by `% 2 ^ 32`;
* `extract_date_from_filename`, `get_file_info`, `generate_file_id`,
  `process_file`, `index_folder` and `insert_files_into_db` from
  `src/index.py`, with the outcomes of the external collaborators
  (`os.path.getsize`, `mimetypes.guess_type`, PIL + pytesseract, cv2)
  supplied as an explicit per-file environment, and the SQLite store as a
  list of rows;
* `search_ocr_text` from `src/ocr_search.py`, with Python `str.split()`
  and the substring operator `in` modelled over character lists.
-/

namespace OcrSearch

/-! ## 32-bit words as naturals -/

/-- Truncation to a 32-bit machine word. -/
def w32 (n : Nat) : Nat := n % 4294967296

/-- Right rotation of a 32-bit word by `k` bits. -/
def rotr32 (k x : Nat) : Nat := w32 ((x >>> k) ||| (x <<< (32 - k)))

/-- Bitwise complement within 32 bits. -/
def not32 (x : Nat) : Nat := x ^^^ 4294967295

/-! ## SHA-256 (FIPS 180-4) -/

/-- SHA-256 small sigma 0. -/
def ssig0 (x : Nat) : Nat := (rotr32 7 x) ^^^ (rotr32 18 x) ^^^ (x >>> 3)

/-- SHA-256 small sigma 1. -/
def ssig1 (x : Nat) : Nat := (rotr32 17 x) ^^^ (rotr32 19 x) ^^^ (x >>> 10)

/-- SHA-256 big Sigma 0. -/
def bsig0 (x : Nat) : Nat := (rotr32 2 x) ^^^ (rotr32 13 x) ^^^ (rotr32 22 x)

/-- SHA-256 big Sigma 1. -/
def bsig1 (x : Nat) : Nat := (rotr32 6 x) ^^^ (rotr32 11 x) ^^^ (rotr32 25 x)

/-- SHA-256 choice function. -/
def shaCh (x y z : Nat) : Nat := (x &&& y) ^^^ (not32 x &&& z)

/-- SHA-256 majority function. -/
def shaMaj (x y z : Nat) : Nat := (x &&& y) ^^^ (x &&& z) ^^^ (y &&& z)

/-- The 64 SHA-256 round constants (FIPS 180-4 section 4.2.2, written in
decimal). -/
def shaK : List Nat :=
  [1116352408, 1899447441, 3049323471, 3921009573,
   961987163, 1508970993, 2453635748, 2870763221,
   3624381080, 310598401, 607225278, 1426881987,
   1925078388, 2162078206, 2614888103, 3248222580,
   3835390401, 4022224774, 264347078, 604807628,
   770255983, 1249150122, 1555081692, 1996064986,
   2554220882, 2821834349, 2952996808, 3210313671,
   3336571891, 3584528711, 113926993, 338241895,
   666307205, 773529912, 1294757372, 1396182291,
   1695183700, 1986661051, 2177026350, 2456956037,
   2730485921, 2820302411, 3259730800, 3345764771,
   3516065817, 3600352804, 4094571909, 275423344,
   430227734, 506948616, 659060556, 883997877,
   958139571, 1322822218, 1537002063, 1747873779,
   1955562222, 2024104815, 2227730452, 2361852424,
   2428436474, 2756734187, 3204031479, 3329325298]

/-- Working state of the compression function: eight 32-bit words. -/
structure SHAState where
  a : Nat
  b : Nat
  c : Nat
  d : Nat
  e : Nat
  f : Nat
  g : Nat
  h : Nat
deriving Repr, DecidableEq

/-- The SHA-256 initial hash value (FIPS 180-4 section 5.3.3, in decimal). -/
def shaInit : SHAState :=
  { a := 1779033703, b := 3144134277, c := 1013904242, d := 2773480762,
    e := 1359893119, f := 2600822924, g := 528734635, h := 1541459225 }

/-- Iterate a function `n` times (structural recursion, so that closed
evaluations reduce in the kernel). -/
def iterN {α : Type} (f : α → α) : Nat → α → α
  | 0, x => x
  | n + 1, x => iterN f n (f x)

/-- One extension step of the message schedule: appends
`ssig1 w[t-2] + w[t-7] + ssig0 w[t-15] + w[t-16]` truncated to 32 bits. -/
def schedStep (w : Array Nat) : Array Nat :=
  w.push (w32 (ssig1 (w.getD (w.size - 2) 0) + w.getD (w.size - 7) 0 +
               ssig0 (w.getD (w.size - 15) 0) + w.getD (w.size - 16) 0))

/-- The 64-entry message schedule from the 16 words of one block. -/
def shaSchedule (block : List Nat) : List Nat :=
  (iterN schedStep 48 block.toArray).toList

/-- One SHA-256 round with round constant `k` and schedule word `w`. -/
def shaRound (k w : Nat) (s : SHAState) : SHAState :=
  let t1 := w32 (s.h + bsig1 s.e + shaCh s.e s.f s.g + k + w)
  let t2 := w32 (bsig0 s.a + shaMaj s.a s.b s.c)
  { a := w32 (t1 + t2), b := s.a, c := s.b, d := s.c,
    e := w32 (s.d + t1), f := s.e, g := s.f, h := s.g }

/-- The SHA-256 compression function over one 16-word block. -/
def shaCompress (s0 : SHAState) (block : List Nat) : SHAState :=
  let t := (shaK.zip (shaSchedule block)).foldl (fun s p => shaRound p.1 p.2 s) s0
  { a := w32 (s0.a + t.a), b := w32 (s0.b + t.b), c := w32 (s0.c + t.c),
    d := w32 (s0.d + t.d), e := w32 (s0.e + t.e), f := w32 (s0.f + t.f),
    g := w32 (s0.g + t.g), h := w32 (s0.h + t.h) }

/-- Big-endian byte rendering of `n` on exactly `k` bytes. -/
def bytesBE : Nat → Nat → List Nat
  | 0, _ => []
  | k + 1, n => bytesBE k (n / 256) ++ [n % 256]

/-- SHA-256 padding: append `0x80`, zero bytes up to 56 mod 64, then the
message bit length on 8 big-endian bytes. -/
def shaPad (msg : List Nat) : List Nat :=
  msg ++ [128] ++ List.replicate ((119 - msg.length % 64) % 64) 0 ++ bytesBE 8 (msg.length * 8)

/-- Group a byte list into 32-bit big-endian words. -/
def toWords : List Nat → List Nat
  | b0 :: b1 :: b2 :: b3 :: rest => (((b0 * 256 + b1) * 256 + b2) * 256 + b3) :: toWords rest
  | _ => []

/-- Split a byte list into 64-byte chunks; the fuel argument (any bound at
least the number of chunks) keeps the recursion structural so that closed
evaluations reduce in the kernel. -/
def chunk64Go : Nat → List Nat → List (List Nat)
  | 0, _ => []
  | _, [] => []
  | fuel + 1, x :: xs => ((x :: xs).take 64) :: chunk64Go fuel ((x :: xs).drop 64)

/-- Split a byte list into 64-byte chunks. -/
def chunk64 (l : List Nat) : List (List Nat) := chunk64Go l.length l

/-- UTF-8 encoding of one character, as bytes. -/
def utf8EncodeCh (c : Char) : List Nat :=
  let n := c.toNat
  if n < 128 then [n]
  else if n < 2048 then [192 + n / 64, 128 + n % 64]
  else if n < 65536 then [224 + n / 4096, 128 + (n / 64) % 64, 128 + n % 64]
  else [240 + n / 262144, 128 + (n / 4096) % 64, 128 + (n / 64) % 64, 128 + n % 64]

/-- UTF-8 bytes of a string (Python `str.encode()`). -/
def utf8Bytes (s : String) : List Nat := (s.toList.map utf8EncodeCh).flatten

/-- Lowercase hexadecimal digit for a nibble. -/
def hexDigit (n : Nat) : Char := "0123456789abcdef".toList.getD (n % 16) '0'

/-- The 8 hexadecimal digits of one 32-bit word, most significant first. -/
def hexWord (w : Nat) : List Char :=
  (List.range 8).map (fun i => hexDigit ((w / 16 ^ (7 - i)) % 16))

/-- Hexadecimal rendering of a SHA-256 state (the `hexdigest()` string). -/
def renderHex (st : SHAState) : String :=
  String.mk (hexWord st.a ++ hexWord st.b ++ hexWord st.c ++ hexWord st.d ++
             hexWord st.e ++ hexWord st.f ++ hexWord st.g ++ hexWord st.h)

/-- SHA-256 of a byte list, as the final state. -/
def sha256Bytes (msg : List Nat) : SHAState :=
  (chunk64 (shaPad msg)).foldl (fun s b => shaCompress s (toWords b)) shaInit

/-- `hashlib.sha256(s.encode()).hexdigest()`: the 64-character lowercase
hexadecimal SHA-256 digest of the UTF-8 bytes of `s`. -/
def sha256hex (s : String) : String := renderHex (sha256Bytes (utf8Bytes s))

/-! ## Python string primitives used by the two scripts -/

/-- Python whitespace for `str.split()` with no argument. -/
def isPySpace (c : Char) : Bool :=
  c == ' ' || c == '\t' || c == '\n' || c == '\r' || c == '\x0b' || c == '\x0c'

/-- Worker for `pySplit`: accumulates the current word (reversed). -/
def splitWsGo : List Char → List Char → List String
  | [], acc => if acc.isEmpty then [] else [String.mk acc.reverse]
  | c :: cs, acc =>
    if isPySpace c then
      if acc.isEmpty then splitWsGo cs [] else String.mk acc.reverse :: splitWsGo cs []
    else splitWsGo cs (c :: acc)

/-- Python `str.split()` with no argument: split on runs of whitespace,
discarding empty pieces. -/
def pySplit (s : String) : List String := splitWsGo s.toList []

/-- Does `needle` occur as a contiguous run inside `haystack`? -/
def listIsInfix (needle : List Char) : List Char → Bool
  | [] => needle.isEmpty
  | c :: cs => List.isPrefixOf needle (c :: cs) || listIsInfix needle cs

/-- Python `needle in haystack` on strings: substring containment. -/
def pyIn (needle haystack : String) : Bool :=
  listIsInfix needle.toList haystack.toList

/-- Python `s.startswith(pre)`. -/
def str_startswith (s pre : String) : Bool :=
  List.isPrefixOf pre.toList s.toList

/-! ## Data model (src/index.py)

`FileInfo` is the dict built by `get_file_info`; `FileRow` is the tuple
returned by `process_file`, i.e. one row of the `files` table.  Python's
`None` is `Option.none`; the f-string rendering of a `None` mime type is
the literal string `"None"` (`mimeRepr`). -/

/-- The dict returned by `get_file_info` (index.py lines 101–109). -/
structure FileInfo where
  size : Nat
  mime_type : Option String
  filename : String
  extension : String
  resolution : Option (Nat × Nat)
  ocr_text : Option String
  date : Option String
deriving Repr, DecidableEq

/-- The tuple returned by `process_file` (index.py lines 134–136), i.e. one
row of the `files` table. -/
structure FileRow where
  id : String
  filename : String
  extension : String
  size : Nat
  mime_type : Option String
  resolution : Option String
  ocr_text : Option String
  date : Option String
deriving Repr, DecidableEq

/-- Outcomes of the external collaborators for one file path.  Each field is
the result the corresponding library call would produce if reached: an
`Except.error` models that call raising an exception.  (`videoOpened` is
`cv2.VideoCapture(...).isOpened()`; `videoDims` is the pair of
`video.get(CAP_PROP_FRAME_WIDTH/HEIGHT)` reads, rounded by `int(...)`.) -/
structure FileEnv where
  getsize : Except String Nat
  mime_type : Option String
  basename_stem : String
  basename_ext : String
  imageDecode : Except String ((Nat × Nat) × String)
  videoOpened : Bool
  videoDims : Except String (Nat × Nat)

/-! ## Metadata extraction (src/index.py lines 74–136) -/

/-- `extract_date_from_filename` (index.py lines 75–77):
`re.match` of `^(\d{4}-\d{2}-\d{2})_` against the filename, returning the
captured date on success.  Digits are modelled as ASCII decimal digits. -/
def extract_date_from_filename (filename : String) : Option String :=
  match filename.toList with
  | c0 :: c1 :: c2 :: c3 :: c4 :: c5 :: c6 :: c7 :: c8 :: c9 :: c10 :: _ =>
    if c0.isDigit && c1.isDigit && c2.isDigit && c3.isDigit && c4 == '-' &&
       c5.isDigit && c6.isDigit && c7 == '-' && c8.isDigit && c9.isDigit && c10 == '_'
    then some (String.mk [c0, c1, c2, c3, c4, c5, c6, c7, c8, c9])
    else none
  | _ => none

/-- The video branch of `get_file_info` (index.py lines 94–99), instrumented
with whether `video.release()` on line 99 executes.  The decoder handle is
opened; if `isOpened()` the frame width/height are read (a fallible call —
any Python expression there can raise); control reaches the `release()` on
line 99 only when no exception occurs, since the branch has no
`try`/`finally`. -/
def video_branch_trace (env : FileEnv) : Except String (Option (Nat × Nat)) × Bool :=
  if env.videoOpened then
    match env.videoDims with
    | Except.ok wh => (Except.ok (some wh), true)
    | Except.error e => (Except.error e, false)
  else (Except.ok none, true)

/-- The mime-dispatched middle of `get_file_info` (index.py lines 87–99):
the `(resolution, ocr_text)` pair, or the exception that escaped the branch.
A `None` mime type is falsy in Python, so both `startswith` branches are
skipped. -/
def resolution_and_ocr (env : FileEnv) : Except String (Option (Nat × Nat) × Option String) :=
  match env.mime_type with
  | some m =>
    if str_startswith m "image" then
      match env.imageDecode with
      | Except.ok x => Except.ok (some x.1, some x.2)
      | Except.error e => Except.error e
    else if str_startswith m "video" then
      match (video_branch_trace env).1 with
      | Except.ok r => Except.ok (r, none)
      | Except.error e => Except.error e
    else Except.ok (none, none)
  | none => Except.ok (none, none)

/-- The body of `get_file_info` inside its `try` (index.py lines 82–109).
`os.path.getsize` runs first, so its exception takes precedence. -/
def get_file_info_body (env : FileEnv) : Except String FileInfo :=
  match env.getsize with
  | Except.error e => Except.error e
  | Except.ok sz =>
    match resolution_and_ocr env with
    | Except.error e => Except.error e
    | Except.ok ro =>
      Except.ok { size := sz, mime_type := env.mime_type,
                  filename := env.basename_stem, extension := env.basename_ext,
                  resolution := ro.1, ocr_text := ro.2,
                  date := extract_date_from_filename env.basename_stem }

/-- `get_file_info` (index.py lines 80–112): the `try`/`except Exception`
wrapper prints and returns `None` on any exception. -/
def get_file_info (env : FileEnv) : Option FileInfo :=
  match get_file_info_body env with
  | Except.ok info => some info
  | Except.error _ => none

/-- The f-string rendering of the mime type inside `generate_file_id`:
Python renders `None` as the string `"None"`. -/
def mimeRepr : Option String → String
  | some m => m
  | none => "None"

/-- The f-string `f"{size}{filename}{extension}{mime_type}"` of
`generate_file_id` (index.py line 116): the four fields concatenated in
that fixed order with no delimiter. -/
def hash_input (info : FileInfo) : String :=
  Nat.repr info.size ++ info.filename ++ info.extension ++ mimeRepr info.mime_type

/-- `generate_file_id` (index.py lines 115–117):
`hashlib.sha256(hash_input.encode()).hexdigest()`. -/
def generate_file_id (info : FileInfo) : String := sha256hex (hash_input info)

/-- The `f"{w}x{h}"` rendering of `process_file` (index.py lines 129–132);
`None` is falsy and any tuple is truthy. -/
def resolution_string : Option (Nat × Nat) → Option String
  | none => none
  | some p => some (Nat.repr p.1 ++ "x" ++ Nat.repr p.2)

/-- `process_file` (index.py lines 120–136): `None` on extraction failure,
otherwise the row tuple with the generated id. -/
def process_file (env : FileEnv) : Option FileRow :=
  match get_file_info env with
  | none => none
  | some info =>
    some { id := generate_file_id info, filename := info.filename,
           extension := info.extension, size := info.size,
           mime_type := info.mime_type,
           resolution := resolution_string info.resolution,
           ocr_text := info.ocr_text, date := info.date }

/-! ## The files store and `insert_files_into_db` (src/index.py lines 168–194)

The SQLite `files` table is a list of rows; its `id TEXT PRIMARY KEY`
together with `INSERT OR IGNORE` makes an insert whose id is already
present a silent no-op. -/

/-- The `files` table. -/
abbrev Store := List FileRow

/-- Does a row with this id exist in the table? -/
def hasId (s : Store) (i : String) : Bool := s.any (fun r => r.id == i)

/-- One row of the `executemany` `INSERT OR IGNORE` statement
(index.py lines 185–188): a primary-key conflict on `id` drops the row
silently, otherwise the row is appended. -/
def insert_or_ignore (s : Store) (r : FileRow) : Store :=
  if hasId s r.id then s else s ++ [r]

/-- The whole `executemany` over one batch, in batch order. -/
def run_batch_insert (s : Store) (batch : List FileRow) : Store :=
  batch.foldl insert_or_ignore s

/-- How the storage layer behaves on one commit attempt: success, a
`sqlite3.OperationalError` (e.g. `database is locked`), or any other
exception. -/
inductive CommitOutcome where
  | ok : CommitOutcome
  | operationalError : String → CommitOutcome
  | otherError : String → CommitOutcome

/-- `insert_files_into_db` (index.py lines 168–194).  On success the batch
is committed through `INSERT OR IGNORE`.  On `sqlite3.OperationalError`, or
on any other exception, the `with` block rolls the transaction back (the
store is unchanged) and the `except` clause prints the error — the function
returns normally in every case (Python `None`), so its result type carries
no failure indication whatsoever. -/
def insert_files_into_db (outcome : CommitOutcome) (s : Store) (batch : List FileRow) : Store :=
  match outcome with
  | CommitOutcome.ok => run_batch_insert s batch
  | CommitOutcome.operationalError _ => s
  | CommitOutcome.otherError _ => s

/-! ## The orchestrator `index_folder` (src/index.py lines 138–166)

Worker results arrive through `as_completed` in some order; the embedding
consumes them as a list, one `FileEnv` per submitted path.  The commit
outcomes of the successive `insert_files_into_db` calls are supplied as a
function from the commit's index to its `CommitOutcome`. -/

/-- The mutable state of the `index_folder` loop: the store behind
`db_path`, the `file_list` buffer, and (as observability for the proofs)
the sizes of the commit attempts made so far. -/
structure IndexState where
  store : Store
  file_list : List FileRow
  commit_log : List Nat
deriving Repr, DecidableEq

/-- The body of the `as_completed` loop (index.py lines 153–160): a `None`
result is dropped; otherwise the row is appended to `file_list`, and once
`len(file_list) >= 50` the batch is handed to `insert_files_into_db` and
`file_list.clear()` runs — whether or not the commit succeeded. -/
def handle_result (outcomes : Nat → CommitOutcome) (st : IndexState)
    (result : Option FileRow) : IndexState :=
  match result with
  | none => st
  | some row =>
    let fl := st.file_list ++ [row]
    if 50 ≤ fl.length then
      { store := insert_files_into_db (outcomes st.commit_log.length) st.store fl,
        file_list := [],
        commit_log := st.commit_log ++ [fl.length] }
    else
      { st with file_list := fl }

/-- The trailing `if file_list: insert_files_into_db(...)` (index.py lines
162–164).  The Python list is a local that dies when `index_folder`
returns; the cleared `file_list` models that the buffered rows are not
reachable afterwards. -/
def final_flush (outcomes : Nat → CommitOutcome) (st : IndexState) : IndexState :=
  match st.file_list with
  | [] => st
  | x :: xs =>
    { store := insert_files_into_db (outcomes st.commit_log.length) st.store (x :: xs),
      file_list := [],
      commit_log := st.commit_log ++ [(x :: xs).length] }

/-- `index_folder` (index.py lines 138–166) over a stream of per-file
environments, starting from the given store contents. -/
def index_folder (outcomes : Nat → CommitOutcome) (envs : List FileEnv)
    (init : Store) : IndexState :=
  final_flush outcomes
    (envs.foldl (fun st env => handle_result outcomes st (process_file env))
      { store := init, file_list := [], commit_log := [] })

/-- Every commit succeeds. -/
def allOk : Nat → CommitOutcome := fun _ => CommitOutcome.ok

/-! ## `search_ocr_text` (src/ocr_search.py lines 6–29) -/

/-- One row of the `SELECT ocr_text, filename, extension FROM files`
result set. -/
structure OcrRow where
  ocr_text : Option String
  filename : String
  extension : String
deriving Repr, DecidableEq

/-- The base directory hardcoded into the search result paths
(ocr_search.py line 22). -/
def media_dir : String := "C:\\Users\\floris\\Desktop\\mydata~1741442335680-1\\chat_media"

/-- `search_ocr_text` (ocr_search.py lines 6–23).  The two comprehensions
on lines 13–14 build the parallel lists `ocr_texts` and `filenames` over
the rows whose `ocr_text` is not `NULL`; line 17 selects the indices whose
text contains some whitespace-token of the query as a *substring* (Python
`word in text`); line 22 maps each selected index to
`os.path.abspath(os.path.join(media_dir, filenames[i]))`, modelled as the
plain Windows join of the already absolute `media_dir`.  Python iterates
`set(query.split())`; since `any` of a pure predicate does not depend on
the order or multiplicity of the collection, the token list is used
directly. -/
def search_ocr_text (query : String) (rows : List OcrRow) : List String :=
  let present := rows.filter (fun r => r.ocr_text.isSome)
  let ocr_texts := present.map (fun r => r.ocr_text.getD "")
  let filenames := present.map (fun r => r.filename ++ r.extension)
  let query_words := pySplit query
  let matching_indices := (List.range ocr_texts.length).filter
      (fun i => query_words.any (fun w => pyIn w (ocr_texts.getD i "")))
  matching_indices.map (fun i => media_dir ++ "\\" ++ filenames.getD i "")

/-- Stated from the spec's words, for comparison with the code: the text
"shares at least one whitespace-delimited token with the query", compared
by token equality. -/
def spec_token_match (query text : String) : Bool :=
  (pySplit text).any (fun t => (pySplit query).any (fun w => t == w))

/-- No two rows of the store share an id. -/
def NodupIds (s : Store) : Prop := (s.map (fun r => r.id)).Nodup

/-- Does the mime type reach the image branch of `get_file_info`? -/
def mime_is_image : Option String → Bool
  | some m => str_startswith m "image"
  | none => false

/-- Does the mime type reach the video branch of `get_file_info` (the image
branch is tested first)? -/
def mime_is_video : Option String → Bool
  | some m => !str_startswith m "image" && str_startswith m "video"
  | none => false

/-! ## Concrete fixtures -/

/-- A plain text file environment whose extraction succeeds: no mime type,
so neither decoder branch runs.  The size is the index, so different
indices give different rows. -/
def mkGoodEnv (i : Nat) : FileEnv :=
  { getsize := Except.ok i, mime_type := none, basename_stem := "f",
    basename_ext := ".txt", imageDecode := Except.error "not reached",
    videoOpened := false, videoDims := Except.error "not reached" }

/-- The metadata `get_file_info` extracts from `mkGoodEnv i`. -/
def goodInfo (i : Nat) : FileInfo :=
  { size := i, mime_type := none, filename := "f", extension := ".txt",
    resolution := none, ocr_text := none, date := none }

/-- The row `process_file` produces from `mkGoodEnv i`. -/
def goodRow (i : Nat) : FileRow :=
  { id := generate_file_id (goodInfo i), filename := "f", extension := ".txt",
    size := i, mime_type := none, resolution := none, ocr_text := none,
    date := none }

/-- 120 successfully extracted files. -/
def envs120 : List FileEnv := (List.range 120).map mkGoodEnv

/-- The first commit attempt hits `sqlite3.OperationalError: database is
locked`; later ones succeed. -/
def lockFirst : Nat → CommitOutcome :=
  fun i => if i = 0 then CommitOutcome.operationalError "database is locked" else CommitOutcome.ok

/-- An image file: 120 bytes, 800x600, recognized text "invoice total". -/
def envImg : FileEnv :=
  { getsize := Except.ok 120, mime_type := some "image/jpeg",
    basename_stem := "2024-01-01_a", basename_ext := ".jpg",
    imageDecode := Except.ok ((800, 600), "invoice total"),
    videoOpened := false, videoDims := Except.error "not reached" }

/-- The metadata `get_file_info` extracts from `envImg`. -/
def infoImg : FileInfo :=
  { size := 120, mime_type := some "image/jpeg", filename := "2024-01-01_a",
    extension := ".jpg", resolution := some (800, 600),
    ocr_text := some "invoice total", date := some "2024-01-01" }

/-- A video file whose container `cv2.VideoCapture` cannot open:
`isOpened()` is false, and the dimension reads are never reached. -/
def envVidClosed : FileEnv :=
  { getsize := Except.ok 5000, mime_type := some "video/mp4",
    basename_stem := "clip", basename_ext := ".mp4",
    imageDecode := Except.error "not reached", videoOpened := false,
    videoDims := Except.error "not reached" }

/-- A video file that opens but whose frame-property read raises. -/
def envVidRaise : FileEnv :=
  { getsize := Except.ok 9000, mime_type := some "video/mp4",
    basename_stem := "broken", basename_ext := ".mp4",
    imageDecode := Except.error "not reached", videoOpened := true,
    videoDims := Except.error "SystemError: video.get failed" }

/-- A file whose `os.path.getsize` raises. -/
def envErr : FileEnv :=
  { getsize := Except.error "unreadable", mime_type := none,
    basename_stem := "x", basename_ext := "",
    imageDecode := Except.error "not reached", videoOpened := false,
    videoDims := Except.error "not reached" }

/-- A row already present in the store. -/
def rowA : FileRow :=
  { id := "idA", filename := "a", extension := ".txt", size := 1,
    mime_type := none, resolution := none, ocr_text := none, date := none }

/-- A fresh row. -/
def rowB : FileRow :=
  { id := "idB", filename := "b", extension := ".txt", size := 2,
    mime_type := none, resolution := none, ocr_text := none, date := none }

/-- A row carrying `rowA`'s id with different payload. -/
def rowA2 : FileRow :=
  { id := "idA", filename := "other", extension := ".bin", size := 9,
    mime_type := none, resolution := none, ocr_text := none, date := none }

/-- Metadata with size 1 and filename "2a". -/
def infoC1 : FileInfo :=
  { size := 1, mime_type := some "x", filename := "2a", extension := ".b",
    resolution := none, ocr_text := none, date := none }

/-- Metadata with size 12 and filename "a": its delimiter-free
concatenation coincides with `infoC1`'s. -/
def infoC2 : FileInfo :=
  { size := 12, mime_type := some "x", filename := "a", extension := ".b",
    resolution := none, ocr_text := none, date := none }

/-- Image metadata; `infoB` agrees with it on the four fingerprint fields
and differs elsewhere. -/
def infoA : FileInfo :=
  { size := 120, mime_type := some "image/jpeg", filename := "chat",
    extension := ".jpg", resolution := some (800, 600),
    ocr_text := some "invoice total", date := none }

/-- Same four fingerprint fields as `infoA`, different optional fields. -/
def infoB : FileInfo :=
  { size := 120, mime_type := some "image/jpeg", filename := "chat",
    extension := ".jpg", resolution := none, ocr_text := none,
    date := some "2024-01-01" }

/-- A stored row whose recognized text contains "total" only inside the
word "subtotal". -/
def rowSub : OcrRow :=
  { ocr_text := some "subtotal due", filename := "a", extension := ".txt" }

/-- The metadata extracted from a video-typed file of size `sz`, mime `m`,
whose container could not be opened. -/
def unopened_info (env : FileEnv) (sz : Nat) (m : String) : FileInfo :=
  { size := sz, mime_type := some m, filename := env.basename_stem,
    extension := env.basename_ext, resolution := none, ocr_text := none,
    date := extract_date_from_filename env.basename_stem }

/-- The row `process_file` produces for such a file. -/
def unopened_row (env : FileEnv) (sz : Nat) (m : String) : FileRow :=
  { id := generate_file_id (unopened_info env sz m),
    filename := env.basename_stem, extension := env.basename_ext,
    size := sz, mime_type := some m, resolution := none, ocr_text := none,
    date := extract_date_from_filename env.basename_stem }

/-! ## Store lemmas -/

theorem hasId_append (s t : Store) (i : String) :
    hasId (s ++ t) i = (hasId s i || hasId t i) := List.any_append

theorem hasId_eq_false_iff (s : Store) (i : String) :
    hasId s i = false ↔ i ∉ s.map (fun r => r.id) := by
  constructor
  · intro h hmem
    obtain ⟨r, hr, hid⟩ := List.mem_map.mp hmem
    have hfalse := List.any_eq_false.mp h r hr
    rw [hid] at hfalse
    simp at hfalse
  · intro h
    apply List.any_eq_false.mpr
    intro r hr
    by_contra hcon
    rw [beq_iff_eq] at hcon
    exact h (List.mem_map.mpr ⟨r, hr, hcon⟩)

theorem hasId_insert_or_ignore (s : Store) (r : FileRow) (i : String)
    (h : hasId s i = true) : hasId (insert_or_ignore s r) i = true := by
  unfold insert_or_ignore
  split
  · exact h
  · rw [hasId_append, h, Bool.true_or]

theorem hasId_insert_or_ignore_self (s : Store) (r : FileRow) :
    hasId (insert_or_ignore s r) r.id = true := by
  unfold insert_or_ignore
  split
  · assumption
  · rw [hasId_append, Bool.or_eq_true]
    right
    simp [hasId]

theorem insert_or_ignore_of_hasId (s : Store) (r : FileRow)
    (h : hasId s r.id = true) : insert_or_ignore s r = s := by
  unfold insert_or_ignore
  rw [if_pos h]

theorem hasId_run_batch_insert (batch : List FileRow) (s : Store) (i : String)
    (h : hasId s i = true) : hasId (run_batch_insert s batch) i = true := by
  induction batch generalizing s with
  | nil => exact h
  | cons r t ih => exact ih (insert_or_ignore s r) (hasId_insert_or_ignore s r i h)

theorem hasId_run_batch_insert_mem (batch : List FileRow) (s : Store) (r : FileRow)
    (h : r ∈ batch) : hasId (run_batch_insert s batch) r.id = true := by
  induction batch generalizing s with
  | nil => cases h
  | cons x t ih =>
    rcases List.mem_cons.mp h with h1 | h2
    · rw [h1]
      exact hasId_run_batch_insert t _ _ (hasId_insert_or_ignore_self s x)
    · exact ih (insert_or_ignore s x) h2

theorem run_batch_insert_of_present (batch : List FileRow) (s : Store)
    (h : ∀ r ∈ batch, hasId s r.id = true) : run_batch_insert s batch = s := by
  induction batch with
  | nil => rfl
  | cons x t ih =>
    have hx : insert_or_ignore s x = s :=
      insert_or_ignore_of_hasId s x (h x (List.mem_cons_self x t))
    show run_batch_insert (insert_or_ignore s x) t = s
    rw [hx]
    exact ih (fun r hr => h r (List.mem_cons_of_mem x hr))

theorem run_batch_insert_idem (batch : List FileRow) (s : Store) :
    run_batch_insert (run_batch_insert s batch) batch = run_batch_insert s batch :=
  run_batch_insert_of_present batch _ (fun r hr => hasId_run_batch_insert_mem batch s r hr)

theorem run_batch_insert_append (s : Store) (b1 b2 : List FileRow) :
    run_batch_insert s (b1 ++ b2) = run_batch_insert (run_batch_insert s b1) b2 := by
  unfold run_batch_insert
  rw [List.foldl_append]

theorem NodupIds_insert_or_ignore (s : Store) (r : FileRow)
    (h : NodupIds s) : NodupIds (insert_or_ignore s r) := by
  unfold insert_or_ignore
  split
  · exact h
  · rename_i hfalse
    have hnot : r.id ∉ s.map (fun x => x.id) :=
      (hasId_eq_false_iff s r.id).mp (Bool.of_not_eq_true hfalse)
    unfold NodupIds
    rw [List.map_append, List.nodup_append]
    exact ⟨h, List.nodup_singleton _, by simpa [List.disjoint_singleton] using hnot⟩

theorem NodupIds_run_batch_insert (batch : List FileRow) (s : Store)
    (h : NodupIds s) : NodupIds (run_batch_insert s batch) := by
  induction batch generalizing s with
  | nil => exact h
  | cons x t ih => exact ih _ (NodupIds_insert_or_ignore s x h)

theorem NodupIds_insert_files_into_db (oc : CommitOutcome) (batch : List FileRow)
    (s : Store) (h : NodupIds s) : NodupIds (insert_files_into_db oc s batch) := by
  cases oc with
  | ok => exact NodupIds_run_batch_insert batch s h
  | operationalError e => exact h
  | otherError e => exact h

/-! ## Orchestrator lemmas -/

theorem handle_result_none (outcomes : Nat → CommitOutcome) (st : IndexState) :
    handle_result outcomes st none = st := rfl

theorem handle_result_some (outcomes : Nat → CommitOutcome) (s : Store)
    (buf : List FileRow) (log : List Nat) (row : FileRow) :
    handle_result outcomes { store := s, file_list := buf, commit_log := log } (some row)
      = if 50 ≤ (buf ++ [row]).length then
          { store := insert_files_into_db (outcomes log.length) s (buf ++ [row]),
            file_list := [], commit_log := log ++ [(buf ++ [row]).length] }
        else { store := s, file_list := buf ++ [row], commit_log := log } := rfl

theorem insert_files_into_db_allOk (n : Nat) (s : Store) (batch : List FileRow) :
    insert_files_into_db (allOk n) s batch = run_batch_insert s batch := rfl

theorem index_loop_store (envs : List FileEnv) (s : Store) (buf : List FileRow)
    (log : List Nat) :
    (final_flush allOk (envs.foldl (fun st env => handle_result allOk st (process_file env))
        { store := s, file_list := buf, commit_log := log })).store
      = run_batch_insert s (buf ++ envs.filterMap process_file) := by
  induction envs generalizing s buf log with
  | nil =>
    simp only [List.foldl_nil, List.filterMap_nil, List.append_nil]
    cases buf with
    | nil => rfl
    | cons x xs => rfl
  | cons e t ih =>
    rw [List.foldl_cons, List.filterMap_cons]
    cases hp : process_file e with
    | none =>
      rw [handle_result_none]
      exact ih s buf log
    | some row =>
      rw [handle_result_some]
      by_cases hlen : 50 ≤ (buf ++ [row]).length
      · rw [if_pos hlen, insert_files_into_db_allOk, ih]
        rw [List.nil_append, ← run_batch_insert_append, List.append_assoc,
          List.singleton_append]
      · rw [if_neg hlen, ih]
        rw [List.append_assoc, List.singleton_append]

theorem index_folder_store (envs : List FileEnv) (init : Store) :
    (index_folder allOk envs init).store
      = run_batch_insert init (envs.filterMap process_file) := by
  have := index_loop_store envs init [] []
  simpa only [List.nil_append] using this

theorem index_folder_twice (envs : List FileEnv) (init : Store) :
    (index_folder allOk envs (index_folder allOk envs init).store).store
      = (index_folder allOk envs init).store := by
  rw [index_folder_store, index_folder_store, run_batch_insert_idem]

theorem index_log_aux (envs : List FileEnv) (outcomes : Nat → CommitOutcome)
    (s : Store) (buf : List FileRow) (log : List Nat) (m : Nat)
    (hbuf : buf.length = m % 50) (hlog : log = List.replicate (m / 50) 50) :
    (final_flush outcomes (envs.foldl (fun st env => handle_result outcomes st (process_file env))
        { store := s, file_list := buf, commit_log := log })).commit_log
      = List.replicate ((m + (envs.filterMap process_file).length) / 50) 50
        ++ (if (m + (envs.filterMap process_file).length) % 50 = 0 then []
            else [(m + (envs.filterMap process_file).length) % 50]) := by
  induction envs generalizing s buf log m with
  | nil =>
    simp only [List.foldl_nil, List.filterMap_nil, List.length_nil, Nat.add_zero]
    cases hb : buf with
    | nil =>
      have h0 : m % 50 = 0 := by
        rw [hb] at hbuf
        simpa using hbuf.symm
      show log = _
      rw [hlog, if_pos h0, List.append_nil]
    | cons x xs =>
      have hne : m % 50 ≠ 0 := by
        rw [hb] at hbuf
        simp only [List.length_cons] at hbuf
        omega
      show log ++ [(x :: xs).length] = _
      rw [if_neg hne, hlog]
      congr 1
      have hx : (x :: xs).length = m % 50 := by
        rw [← hb]
        exact hbuf
      rw [hx]
  | cons e t ih =>
    rw [List.foldl_cons, List.filterMap_cons]
    cases hp : process_file e with
    | none =>
      rw [handle_result_none]
      exact ih s buf log m hbuf hlog
    | some row =>
      rw [handle_result_some]
      have hlen : (buf ++ [row]).length = m % 50 + 1 := by
        simp [hbuf]
      by_cases hcase : m % 50 = 49
      · have hge : 50 ≤ (buf ++ [row]).length := by omega
        rw [if_pos hge]
        have hbuf2 : ([] : List FileRow).length = (m + 1) % 50 := by
          simp only [List.length_nil]
          omega
        have hlog2 : log ++ [(buf ++ [row]).length] = List.replicate ((m + 1) / 50) 50 := by
          have h50 : (buf ++ [row]).length = 50 := by omega
          have hdiv : (m + 1) / 50 = m / 50 + 1 := by omega
          rw [h50, hlog, hdiv, List.replicate_succ']
        rw [ih _ [] (log ++ [(buf ++ [row]).length]) (m + 1) hbuf2 hlog2]
        have harith : m + 1 + (t.filterMap process_file).length
            = m + ((t.filterMap process_file).length + 1) := by omega
        simp only [List.length_cons]
        rw [harith]
      · have hlt : ¬ 50 ≤ (buf ++ [row]).length := by omega
        rw [if_neg hlt]
        have hbuf2 : (buf ++ [row]).length = (m + 1) % 50 := by
          rw [hlen]
          omega
        have hlog2 : log = List.replicate ((m + 1) / 50) 50 := by
          rw [hlog]
          congr 1
          omega
        rw [ih s (buf ++ [row]) log (m + 1) hbuf2 hlog2]
        have harith : m + 1 + (t.filterMap process_file).length
            = m + ((t.filterMap process_file).length + 1) := by omega
        simp only [List.length_cons]
        rw [harith]

theorem index_folder_log (outcomes : Nat → CommitOutcome) (envs : List FileEnv)
    (init : Store) :
    (index_folder outcomes envs init).commit_log
      = List.replicate ((envs.filterMap process_file).length / 50) 50
        ++ (if (envs.filterMap process_file).length % 50 = 0 then []
            else [(envs.filterMap process_file).length % 50]) := by
  have := index_log_aux envs outcomes init [] [] 0 (by simp) (by simp)
  simpa only [Nat.zero_add] using this

/-! ## Lemmas about get_file_info and search_ocr_text -/

theorem get_file_info_eq_some_iff (env : FileEnv) (info : FileInfo) :
    get_file_info env = some info ↔ get_file_info_body env = Except.ok info := by
  unfold get_file_info
  cases get_file_info_body env with
  | ok i => simp
  | error e => simp

theorem range_filter_map_getD (f g : OcrRow → String) (q : String → Bool)
    (F : String → String) (l : List OcrRow) :
    ((List.range (l.map f).length).filter (fun i => q ((l.map f).getD i ""))).map
        (fun i => F ((l.map g).getD i ""))
      = (l.filter (fun r => q (f r))).map (fun r => F (g r)) := by
  induction l with
  | nil => rfl
  | cons a t ih =>
    cases hq : q (f a) with
    | true =>
      simp only [List.map_cons, List.length_cons, List.range_succ_eq_map,
        List.filter_cons, List.getD_cons_zero, hq, eq_self_iff_true, if_true,
        List.filter_map, List.map_map, Function.comp_def, List.getD_cons_succ]
      rw [ih]
    | false =>
      simp only [List.map_cons, List.length_cons, List.range_succ_eq_map,
        List.filter_cons, List.getD_cons_zero, hq, Bool.false_eq_true, if_false,
        List.filter_map, List.map_map, Function.comp_def, List.getD_cons_succ]
      rw [ih]

theorem NodupIds_batch_runs (batches : List (CommitOutcome × List FileRow)) (s : Store)
    (hs : NodupIds s) :
    NodupIds (batches.foldl (fun st b => insert_files_into_db b.1 st b.2) s) := by
  induction batches generalizing s with
  | nil => exact hs
  | cons b t ih => exact ih _ (NodupIds_insert_files_into_db b.1 b.2 s hs)

theorem process_file_mkGoodEnv (i : Nat) :
    process_file (mkGoodEnv i) = some (goodRow i) := rfl

theorem filterMap_mkGoodEnv (l : List Nat) :
    (l.map mkGoodEnv).filterMap process_file = l.map goodRow := by
  induction l with
  | nil => rfl
  | cons x t ih =>
    simp only [List.map_cons, List.filterMap_cons, process_file_mkGoodEnv]
    rw [ih]

/-! ## Claims -/

/-- C1: over any sequence of insert attempts (any commit outcomes), ids in
the files store stay pairwise distinct; an insert whose id is already
present leaves the store unchanged without raising (the embedded insert has
no error result); and running the pipeline a second time over the same
inputs leaves the same set of rows as one run. -/
theorem files_store_dedup (s : Store) (batches : List (CommitOutcome × List FileRow))
    (r : FileRow) (envs : List FileEnv) (init : Store) (hs : NodupIds s) :
    NodupIds (batches.foldl (fun st b => insert_files_into_db b.1 st b.2) s)
    ∧ (hasId s r.id = true → insert_files_into_db CommitOutcome.ok s [r] = s)
    ∧ (index_folder allOk envs (index_folder allOk envs init).store).store
        = (index_folder allOk envs init).store := by
  refine ⟨NodupIds_batch_runs batches s hs, ?_, index_folder_twice envs init⟩
  intro h
  show insert_or_ignore s r = s
  exact insert_or_ignore_of_hasId s r h

/-- Witness for C1 at a concrete store and batch sequence. -/
theorem files_store_dedup_witness :
    NodupIds ([(CommitOutcome.ok, [rowA, rowB, rowA2])].foldl
        (fun st b => insert_files_into_db b.1 st b.2) [rowA])
    ∧ insert_files_into_db CommitOutcome.ok [rowA] [rowA2] = [rowA]
    ∧ (index_folder allOk [mkGoodEnv 0]
          (index_folder allOk [mkGoodEnv 0] []).store).store
        = (index_folder allOk [mkGoodEnv 0] []).store := by
  have h := files_store_dedup [rowA] [(CommitOutcome.ok, [rowA, rowB, rowA2])] rowA2
    [mkGoodEnv 0] []
    (by show (List.map (fun r => r.id) [rowA]).Nodup; decide)
  exact ⟨h.1, h.2.1 (by decide), h.2.2⟩

/-- Helper: the digest string always has length 64. -/
theorem sha256hex_length (s : String) : (sha256hex s).length = 64 := by
  simp [sha256hex, renderHex, hexWord, String.length]

/-- Helper: every nibble renders to a hexadecimal character. -/
theorem hexDigit_mem (n : Nat) : hexDigit n ∈ "0123456789abcdef".toList := by
  unfold hexDigit
  have hlt : n % 16 < ("0123456789abcdef".toList).length := by
    have : n % 16 < 16 := Nat.mod_lt _ (by norm_num)
    simpa using this
  rw [List.getD_eq_getElem _ _ hlt]
  exact List.getElem_mem hlt

/-- Helper: every character of a rendered word is a hexadecimal digit. -/
theorem hexWord_mem (w : Nat) : ∀ c ∈ hexWord w, c ∈ "0123456789abcdef".toList := by
  intro c hc
  simp only [hexWord, List.mem_map, List.mem_range] at hc
  obtain ⟨i, hi, rfl⟩ := hc
  exact hexDigit_mem _

/-- Helper: hexadecimal-digit membership distributes over append. -/
theorem mem_hex_append (l1 l2 : List Char)
    (h1 : ∀ x ∈ l1, x ∈ "0123456789abcdef".toList)
    (h2 : ∀ x ∈ l2, x ∈ "0123456789abcdef".toList) :
    ∀ x ∈ l1 ++ l2, x ∈ "0123456789abcdef".toList := by
  intro x hx
  rcases List.mem_append.mp hx with h | h
  · exact h1 x h
  · exact h2 x h

/-- Helper: every character of the digest string is a hexadecimal digit. -/
theorem sha256hex_mem_hex (s : String) :
    ∀ c ∈ (sha256hex s).toList, c ∈ "0123456789abcdef".toList :=
  mem_hex_append _ _ (mem_hex_append _ _ (mem_hex_append _ _ (mem_hex_append _ _
    (mem_hex_append _ _ (mem_hex_append _ _ (mem_hex_append _ _ (hexWord_mem _)
      (hexWord_mem _)) (hexWord_mem _)) (hexWord_mem _)) (hexWord_mem _))
      (hexWord_mem _)) (hexWord_mem _)) (hexWord_mem _)

/-- Helper: the digest string tests as all-hexadecimal. -/
theorem sha256hex_all_hex (s : String) :
    ((sha256hex s).toList.all
      (fun c => "0123456789abcdef".toList.contains c)) = true := by
  rw [List.all_eq_true]
  intro c hc
  exact List.elem_eq_true_of_mem (sha256hex_mem_hex s c hc)

/-- C2: the fingerprint depends on exactly the four fields (size, filename,
extension, mime type) — records agreeing there get equal ids whatever their
other fields — and the output is a fixed-length 64-character string of
hexadecimal digits, the SHA-256 hex digest of the delimiter-free
concatenation. -/
theorem generate_file_id_deterministic (i1 i2 : FileInfo)
    (h1 : i1.size = i2.size) (h2 : i1.filename = i2.filename)
    (h3 : i1.extension = i2.extension) (h4 : i1.mime_type = i2.mime_type) :
    generate_file_id i1 = generate_file_id i2
    ∧ (generate_file_id i1).length = 64
    ∧ ((generate_file_id i1).toList.all
        (fun c => "0123456789abcdef".toList.contains c)) = true := by
  refine ⟨?_, sha256hex_length _, sha256hex_all_hex _⟩
  unfold generate_file_id hash_input
  rw [h1, h2, h3, h4]

/-- Witness for C2 at two records sharing the four fingerprint fields. -/
theorem generate_file_id_deterministic_witness :
    generate_file_id infoA = generate_file_id infoB
    ∧ (generate_file_id infoA).length = 64
    ∧ ((generate_file_id infoA).toList.all
        (fun c => "0123456789abcdef".toList.contains c)) = true :=
  generate_file_id_deterministic infoA infoB rfl rfl rfl rfl

/-- C3 counterexample: `infoC1` and `infoC2` differ in size (and filename),
yet the delimiter-free concatenations coincide ("12a.bx"), so the ids are
identical — no digest collision is involved. -/
theorem fingerprint_sensitivity_counterexample :
    infoC1.size ≠ infoC2.size ∧ infoC1.filename ≠ infoC2.filename
    ∧ hash_input infoC1 = hash_input infoC2
    ∧ generate_file_id infoC1 = generate_file_id infoC2 := by
  have hh : hash_input infoC1 = hash_input infoC2 := by decide
  exact ⟨by decide, by decide, hh, congrArg sha256hex hh⟩

/-- C3 amended: records agreeing on all four fields get the same id, and
the id is a function of the delimiter-free concatenation alone, so records
whose concatenations coincide share an id even when their fields differ. -/
theorem fingerprint_concatenation_determines_id (i1 i2 : FileInfo) :
    ((i1.size = i2.size ∧ i1.filename = i2.filename ∧ i1.extension = i2.extension
        ∧ i1.mime_type = i2.mime_type) → generate_file_id i1 = generate_file_id i2)
    ∧ (hash_input i1 = hash_input i2 → generate_file_id i1 = generate_file_id i2) := by
  constructor
  · rintro ⟨h1, h2, h3, h4⟩
    unfold generate_file_id hash_input
    rw [h1, h2, h3, h4]
  · intro h
    exact congrArg sha256hex h

/-- Witness for the amended C3 at the colliding pair. -/
theorem fingerprint_concatenation_determines_id_witness :
    generate_file_id infoC1 = generate_file_id infoC2 :=
  (fingerprint_concatenation_determines_id infoC1 infoC2).2 (by decide)

/-- C4: evaluation of the code at a failing batch commit.  A run of one
successfully extracted file whose (final-flush) commit raises
`sqlite3.OperationalError` ends with the record in neither the store nor
the buffer, the run state carrying no failure indication of any kind —
the same run with a succeeding commit stores the record, so the loss is
caused by the swallowed failure alone.  At the storage layer, a failing
commit leaves previously committed rows untouched (`[rowA]` survives), so
the lost data is exactly the still-buffered batch. -/
theorem batch_commit_failure_swallowed :
    index_folder lockFirst [mkGoodEnv 7] []
      = { store := [], file_list := [], commit_log := [1] }
    ∧ index_folder allOk [mkGoodEnv 7] []
      = { store := [goodRow 7], file_list := [], commit_log := [1] }
    ∧ insert_files_into_db (CommitOutcome.operationalError "database is locked")
        [rowA] [rowB] = [rowA]
    ∧ insert_files_into_db CommitOutcome.ok [rowA] [rowB] = [rowA, rowB] :=
  ⟨rfl, rfl, rfl, rfl⟩

/-- C5: the batch writer commits the buffer each time it reaches 50 rows
and clears it, and a final flush commits any partial remainder: over any
run the commit sizes are exactly ⌊n/50⌋ many 50s followed by n mod 50 when
non-zero (n the number of successfully extracted files); in particular 120
successful files produce exactly the three commits 50, 50, 20. -/
theorem batch_writer_threshold (envs : List FileEnv) :
    ((index_folder allOk envs []).commit_log
      = List.replicate ((envs.filterMap process_file).length / 50) 50
        ++ (if (envs.filterMap process_file).length % 50 = 0 then []
            else [(envs.filterMap process_file).length % 50]))
    ∧ (index_folder allOk envs120 []).commit_log = [50, 50, 20] := by
  constructor
  · exact index_folder_log allOk envs []
  · rw [index_folder_log allOk envs120 []]
    have h120 : (envs120.filterMap process_file).length = 120 := by
      unfold envs120
      rw [filterMap_mkGoodEnv]
      simp
    rw [h120]
    decide

/-- Helper: a successful extraction copies the mime type verbatim and its
optional fields are exactly what the mime-dispatched branch produced. -/
theorem get_file_info_fields (env : FileEnv) (info : FileInfo)
    (h : get_file_info env = some info) :
    info.mime_type = env.mime_type
    ∧ resolution_and_ocr env = Except.ok (info.resolution, info.ocr_text) := by
  rw [get_file_info_eq_some_iff] at h
  unfold get_file_info_body at h
  cases hsz : env.getsize with
  | error e =>
    rw [hsz] at h
    cases h
  | ok sz =>
    rw [hsz] at h
    cases hro : resolution_and_ocr env with
    | error e =>
      rw [hro] at h
      cases h
    | ok ro =>
      rw [hro] at h
      injection h with h
      rw [← h]
      exact ⟨rfl, rfl⟩

/-- C6 counterexample: a successfully extracted record with a video mime
type and `resolution` absent — the container could not be opened, yet the
extraction succeeds, contradicting "video mime type yields a record with
resolution present". -/
theorem resolution_ocr_by_mime_counterexample :
    get_file_info envVidClosed
      = some { size := 5000, mime_type := some "video/mp4", filename := "clip",
               extension := ".mp4", resolution := none, ocr_text := none,
               date := none }
    ∧ str_startswith "video/mp4" "video" = true :=
  ⟨rfl, rfl⟩

/-- C6 amended: for every successfully extracted record, `recognized_text`
is present exactly for image mime types, and `resolution` is present
exactly for image mime types and for video mime types whose container the
decoder could open; all other (or absent) mime types yield both absent. -/
theorem resolution_ocr_by_mime (env : FileEnv) (info : FileInfo)
    (h : get_file_info env = some info) :
    info.ocr_text.isSome = mime_is_image info.mime_type
    ∧ info.resolution.isSome
        = (mime_is_image info.mime_type
           || (mime_is_video info.mime_type && env.videoOpened)) := by
  obtain ⟨hmime, hro⟩ := get_file_info_fields env info h
  rw [hmime]
  unfold resolution_and_ocr at hro
  cases hmt : env.mime_type with
  | none =>
    rw [hmt] at hro
    simp only [] at hro
    injection hro with hro
    have hres : info.resolution = none := (congrArg Prod.fst hro).symm
    have hocr : info.ocr_text = none := (congrArg Prod.snd hro).symm
    rw [hres, hocr]
    exact ⟨rfl, rfl⟩
  | some m =>
    rw [hmt] at hro
    simp only [] at hro
    cases himg : str_startswith m "image" with
    | true =>
      rw [himg] at hro
      cases hd : env.imageDecode with
      | error e =>
        rw [hd] at hro
        cases hro
      | ok x =>
        rw [hd] at hro
        injection hro with hro
        have hres : info.resolution = some x.1 := (congrArg Prod.fst hro).symm
        have hocr : info.ocr_text = some x.2 := (congrArg Prod.snd hro).symm
        rw [hres, hocr]
        constructor
        · simp [mime_is_image, himg]
        · simp [mime_is_image, himg]
    | false =>
      rw [himg] at hro
      cases hvid : str_startswith m "video" with
      | true =>
        rw [hvid] at hro
        unfold video_branch_trace at hro
        cases hop : env.videoOpened with
        | true =>
          rw [hop] at hro
          cases hd : env.videoDims with
          | error e =>
            rw [hd] at hro
            cases hro
          | ok wh =>
            rw [hd] at hro
            injection hro with hro
            have hres : info.resolution = some wh := (congrArg Prod.fst hro).symm
            have hocr : info.ocr_text = none := (congrArg Prod.snd hro).symm
            rw [hres, hocr]
            constructor
            · simp [mime_is_image, himg]
            · simp [mime_is_image, mime_is_video, himg, hvid, hop]
        | false =>
          rw [hop] at hro
          injection hro with hro
          have hres : info.resolution = none := (congrArg Prod.fst hro).symm
          have hocr : info.ocr_text = none := (congrArg Prod.snd hro).symm
          rw [hres, hocr]
          constructor
          · simp [mime_is_image, himg]
          · simp [mime_is_image, mime_is_video, himg, hvid, hop]
      | false =>
        rw [hvid] at hro
        injection hro with hro
        have hres : info.resolution = none := (congrArg Prod.fst hro).symm
        have hocr : info.ocr_text = none := (congrArg Prod.snd hro).symm
        rw [hres, hocr]
        constructor
        · simp [mime_is_image, himg]
        · simp [mime_is_image, mime_is_video, himg, hvid]

/-- Witness for the amended C6 at a decodable image file. -/
theorem resolution_ocr_by_mime_witness :
    infoImg.ocr_text.isSome = mime_is_image infoImg.mime_type
    ∧ infoImg.resolution.isSome
        = (mime_is_image infoImg.mime_type
           || (mime_is_video infoImg.mime_type && envImg.videoOpened)) :=
  resolution_ocr_by_mime envImg infoImg rfl

/-- C7: an exception inside the extractor body makes `get_file_info`, and
hence `process_file`, return the per-file nil result instead of
propagating, and a run containing the failing path stores exactly what the
run without it stores — every sibling is still processed and recorded. -/
theorem extraction_failure_isolated (env : FileEnv) (e : String)
    (h : get_file_info_body env = Except.error e) (pre post : List FileEnv)
    (init : Store) :
    get_file_info env = none
    ∧ process_file env = none
    ∧ (index_folder allOk (pre ++ env :: post) init).store
        = (index_folder allOk (pre ++ post) init).store := by
  have hg : get_file_info env = none := by
    unfold get_file_info
    rw [h]
  have hp : process_file env = none := by
    unfold process_file
    rw [hg]
  refine ⟨hg, hp, ?_⟩
  rw [index_folder_store, index_folder_store]
  simp only [List.filterMap_append, List.filterMap_cons, hp]

/-- Witness for C7: an unreadable file between two good files. -/
theorem extraction_failure_isolated_witness :
    get_file_info envErr = none
    ∧ process_file envErr = none
    ∧ (index_folder allOk ([mkGoodEnv 1] ++ envErr :: [mkGoodEnv 2]) []).store
        = (index_folder allOk ([mkGoodEnv 1] ++ [mkGoodEnv 2]) []).store :=
  extraction_failure_isolated envErr "unreadable" rfl [mkGoodEnv 1] [mkGoodEnv 2] []

/-- C8 counterexample: the search matches `rowSub`, whose text "subtotal
due" shares no whitespace-delimited token with the query "total" — the
selection is substring containment of query tokens, not token equality. -/
theorem search_token_match_counterexample :
    search_ocr_text "total" [rowSub] = [media_dir ++ "\\" ++ "a.txt"]
    ∧ spec_token_match "total" "subtotal due" = false
    ∧ pyIn "total" "subtotal due" = true := by
  refine ⟨by decide, by decide, by decide⟩

/-- C8 amended: the search returns exactly the rows with non-null
recognized text such that some whitespace-delimited token of the query
occurs as a substring of the text (Python `word in text`), projected to
`filename+extension` under the fixed media directory; "invoice total due"
still matches query "total" and not query "totally". -/
theorem search_substring_semantics (query : String) (rows : List OcrRow) :
    search_ocr_text query rows
      = ((rows.filter (fun r => r.ocr_text.isSome)).filter
          (fun r => (pySplit query).any (fun w => pyIn w (r.ocr_text.getD "")))).map
          (fun r => media_dir ++ "\\" ++ (r.filename ++ r.extension))
    ∧ (pySplit "total").any (fun w => pyIn w "invoice total due") = true
    ∧ (pySplit "totally").any (fun w => pyIn w "invoice total due") = false := by
  refine ⟨?_, by decide, by decide⟩
  show (((List.range ((rows.filter (fun r => r.ocr_text.isSome)).map
        (fun r => r.ocr_text.getD "")).length).filter
          (fun i => (pySplit query).any (fun w =>
            pyIn w (((rows.filter (fun r => r.ocr_text.isSome)).map
              (fun r => r.ocr_text.getD "")).getD i "")))).map
        (fun i => media_dir ++ "\\" ++ ((rows.filter (fun r => r.ocr_text.isSome)).map
          (fun r => r.filename ++ r.extension)).getD i ""))
      = _
  exact range_filter_map_getD (fun r => r.ocr_text.getD "")
    (fun r => r.filename ++ r.extension)
    (fun t => (pySplit query).any (fun w => pyIn w t))
    (fun t => media_dir ++ "\\" ++ t) (rows.filter (fun r => r.ocr_text.isSome))

/-- C9: evaluation of the code at an exception between the decoder open and
the release.  For `envVidRaise` — container opened, frame-property read
raises — the instrumented video branch records that `video.release()` on
line 99 never ran (there is no `try`/`finally`), while the exception is
caught by the outer handler and extraction reports failure; for
`envVidClosed` — container not opened — the release does run, as it does on
the success path. -/
theorem video_release_skipped_on_exception :
    (video_branch_trace envVidRaise).2 = false
    ∧ (video_branch_trace envVidRaise).1
        = Except.error "SystemError: video.get failed"
    ∧ get_file_info envVidRaise = none
    ∧ (video_branch_trace envVidClosed).2 = true :=
  ⟨rfl, rfl, rfl, rfl⟩

/-- C10: a video-typed file whose container cannot be opened is extracted
successfully with `resolution` and `recognized_text` both absent, and the
resulting record is fingerprinted and committed to the store like any other
successful extraction. -/
theorem unopened_video_recorded (env : FileEnv) (sz : Nat) (m : String)
    (h1 : env.getsize = Except.ok sz) (h2 : env.mime_type = some m)
    (h3 : str_startswith m "image" = false)
    (h4 : str_startswith m "video" = true)
    (h5 : env.videoOpened = false) :
    get_file_info env = some (unopened_info env sz m)
    ∧ process_file env = some (unopened_row env sz m)
    ∧ (unopened_row env sz m).id = generate_file_id (unopened_info env sz m)
    ∧ (index_folder allOk [env] []).store = [unopened_row env sz m] := by
  have hro : resolution_and_ocr env = Except.ok (none, none) := by
    unfold resolution_and_ocr
    rw [h2]
    simp only []
    rw [h3]
    simp only [Bool.false_eq_true, if_false]
    rw [h4]
    simp only [if_true]
    unfold video_branch_trace
    rw [h5]
    simp only [Bool.false_eq_true, if_false]
  have hg : get_file_info env = some (unopened_info env sz m) := by
    unfold get_file_info get_file_info_body
    rw [h1, hro]
    unfold unopened_info
    rw [h2]
  have hp : process_file env = some (unopened_row env sz m) := by
    unfold process_file
    rw [hg]
    unfold unopened_row unopened_info
    rfl
  refine ⟨hg, hp, rfl, ?_⟩
  rw [index_folder_store]
  simp only [List.filterMap_cons, hp, List.filterMap_nil]
  show insert_or_ignore [] (unopened_row env sz m) = _
  unfold insert_or_ignore hasId
  simp

/-- Witness for C10 at `envVidClosed`. -/
theorem unopened_video_recorded_witness :
    get_file_info envVidClosed = some (unopened_info envVidClosed 5000 "video/mp4")
    ∧ process_file envVidClosed = some (unopened_row envVidClosed 5000 "video/mp4")
    ∧ (unopened_row envVidClosed 5000 "video/mp4").id
        = generate_file_id (unopened_info envVidClosed 5000 "video/mp4")
    ∧ (index_folder allOk [envVidClosed] []).store
        = [unopened_row envVidClosed 5000 "video/mp4"] :=
  unopened_video_recorded envVidClosed 5000 "video/mp4" rfl rfl rfl rfl rfl

end OcrSearch

